import Mathlib

/-!
Verification of the modal variant registry and payload-contract derivation
of `packages/shared/src/components/modals/common.tsx`.

The shallow embedding models:
* the closed identifier enum `LazyModal` and the registry object `modals`
  (an association list of identifier/deferred-loader pairs, in the order
  of the source object literal);
* the type-level contract derivation (`LazyModalComponentType`,
  `RequiredKeys`, `NonOptional`, `LazyModalType`) as value-level
  computations over field sets: a renderer input shape is a list of named
  fields each marked required or optional;
* the request validator and the deferred loader's memo, which are not
  present as code under `src/` (the validator is the compile-time type
  `LazyModalType`; the loader memo lives in the dynamic-import library),
  modelled from the spec where noted.
-/

/-- Closed set of modal variant identifiers, from the `LazyModal` enum
used as the key set of the `modals` object literal. -/
inductive LazyModal where
  | SquadMember
  | UpvotedPopup
  | SquadTour
  | ReadingHistory
  | SquadPromotion
  | CreateSharedPost
  | ReportPost
  | ReportComment
  | SquadNotifications
deriving DecidableEq, Repr

/-- Deferred-loader registry entry: a `dynamic(() => import(...))` call in
the source, identified by its webpack chunk name and module path. -/
structure RegistryEntry where
  chunkName : String
  modulePath : String
deriving DecidableEq, Repr

/-- The registry object `modals` of the source, as the association list of
its key-value pairs in source order. Each value records the `dynamic`
call's chunk name and imported module path. -/
def modals : List (LazyModal × RegistryEntry) :=
  [(.SquadMember, ⟨"squadMemberModal", "./SquadMemberModal"⟩),
   (.UpvotedPopup, ⟨"upvotedPopupModal", "./UpvotedPopupModal"⟩),
   (.SquadTour, ⟨"squadTourModal", "./SquadTourModal"⟩),
   (.ReadingHistory, ⟨"readingHistoryModal", "./post/ReadingHistoryModal"⟩),
   (.SquadPromotion, ⟨"squadPromotionModal", "./squads/SquadPromotionModal"⟩),
   (.CreateSharedPost, ⟨"createSharedPostModal", "./post/CreateSharedPostModal"⟩),
   (.ReportPost, ⟨"reportPostModal", "./report/ReportPostModal"⟩),
   (.ReportComment, ⟨"reportCommentModal", "./report/ReportCommentModal"⟩),
   (.SquadNotifications, ⟨"squadNotificationsModal", "./squads/SquadNotificationsModal"⟩)]

/-- Registry lookup: `resolve(id)` is association-list lookup over the
`modals` object. -/
def resolve (id : LazyModal) : Option RegistryEntry :=
  modals.lookup id

/-- One named field of a renderer input shape, with its required/optional
marking as declared by the renderer (`required = false` means the
renderer declares the field optional). -/
structure PropField where
  name : String
  required : Bool
deriving DecidableEq, Repr

/-- A renderer input shape (or a derived contract): a list of named
fields. -/
abbrev Shape : Type := List PropField

/-- Contract derivation, from `LazyModalComponentType<K> =
Omit<GetComponentProps<ModalsType[K]>, 'isOpen' | 'onRequestClose'>`:
the renderer input shape minus the two host-injected lifecycle fields
`isOpen` (the visible flag) and `onRequestClose` (the close callback). -/
def contractOf (s : Shape) : Shape :=
  s.filter (fun f => f.name != "isOpen" && f.name != "onRequestClose")

/-- Required key names of a shape, from the `RequiredKeys<T>` mapped type:
the keys whose field is not marked optional. -/
def RequiredKeys (t : Shape) : List String :=
  (t.filter (fun f => f.required)).map (fun f => f.name)

/-- Required-field projection, from `NonOptional<T> = Pick<T, RequiredKeys<T>>`. -/
def NonOptional (t : Shape) : Shape :=
  t.filter (fun f => f.required)

/-- Whether the request's `props` member is mandatory, from the
conditional in `LazyModalType`: `props` is optional exactly when
`NonOptional<LazyModalComponentType<K>> extends Record<string, never>`,
i.e. when the derived contract has no required field. -/
def payloadRequired (s : Shape) : Bool :=
  !(NonOptional (contractOf s)).isEmpty

/-- A payload supplied by a caller: the list of field names it provides
(values are irrelevant to the validation logic). -/
abbrev Payload : Type := List String

/-- Contract-violation taxonomy of the validator. -/
inductive ContractViolation where
  | missingPayload (id : LazyModal)
  | missingField (id : LazyModal) (field : String)
  | unknownField (id : LazyModal) (field : String)
deriving DecidableEq, Repr

/-- A validated modal request. -/
structure ModalRequest where
  id : LazyModal
  payload : Option Payload
deriving DecidableEq

/-- Modelled from the spec: the runtime validator `buildRequest(id,
payload?)`. In the source the validation is performed by the compile-time
type `LazyModalType<K>` (the `props` member is optional or mandatory by
`payloadRequired`, required props must be present, and excess props are
rejected); the runtime algorithm that operationalises it is not under
`src/`, so it follows the spec's numbered steps: (1) missing-payload
check against `payloadRequired`, (2) required-field check over
`contractOf`, (3) unknown-field rejection, (4) success. `shape` is the
renderer input shape declared for `id`'s renderer. -/
def buildRequest (id : LazyModal) (shape : Shape) (payload : Option Payload) :
    Except ContractViolation ModalRequest :=
  match payload with
  | none =>
    if payloadRequired shape then .error (.missingPayload id)
    else .ok ⟨id, none⟩
  | some p =>
    let contract := contractOf shape
    match (NonOptional contract).find? (fun f => !p.contains f.name) with
    | some f => .error (.missingField id f.name)
    | none =>
      match p.find? (fun n => !contract.any (fun f => f.name == n)) with
      | some n => .error (.unknownField id n)
      | none => .ok ⟨id, some p⟩

/-- A loaded renderer instance, identified by a numeric instance tag so
that "the same renderer instance" is expressible. -/
structure Renderer where
  instanceTag : Nat
deriving DecidableEq, Repr

/-- Outcome of one fetch/initialization attempt. -/
inductive LoadOutcome where
  | success (r : Renderer)
  | failure (cause : Nat)
deriving DecidableEq, Repr

/-- Modelled from the spec: the per-identifier memo slot of the deferred
loader (the `dynamic()` machinery is library code, not under `src/`).
Transitions permitted by the spec: `NotLoaded -> Loading -> Loaded` and
`NotLoaded -> Loading -> Failed -> (retry) -> Loading -> ...`. The
`loading` state counts the callers joined to the single in-flight
attempt. -/
inductive SlotState where
  | notLoaded
  | loading (waiters : Nat)
  | loaded (r : Renderer)
  | failed (cause : Nat)
deriving DecidableEq, Repr

/-- State of the deferred loader for one identifier: the memo slot plus
the number of fetch/initialization attempts issued so far. -/
structure LoaderState where
  slot : SlotState
  fetches : Nat
deriving DecidableEq, Repr

/-- What a call to `load(id)` observes immediately: the memoized renderer
(returned with no suspension and no fetch), or suspension joined to the
single in-flight attempt. -/
inductive CallResult where
  | immediate (r : Renderer)
  | joined
deriving DecidableEq, Repr

/-- Modelled from the spec: one call to `load(id)`. On `notLoaded` or
`failed` it issues a new fetch and becomes the in-flight attempt's first
waiter; on `loading` it joins the existing in-flight attempt without a
new fetch; on `loaded r` it returns `r` immediately with no fetch. -/
def callLoad (st : LoaderState) : LoaderState × CallResult :=
  match st.slot with
  | .notLoaded => (⟨.loading 1, st.fetches + 1⟩, .joined)
  | .loading w => (⟨.loading (w + 1), st.fetches⟩, .joined)
  | .loaded r => (st, .immediate r)
  | .failed _ => (⟨.loading 1, st.fetches + 1⟩, .joined)

/-- Modelled from the spec: the in-flight attempt settles with `out`.
Every joined waiter is delivered the same shared outcome; the slot moves
to `loaded` on success and to `failed` on failure. Settling is a no-op
when no attempt is in flight. -/
def settle (st : LoaderState) (out : LoadOutcome) : LoaderState × List LoadOutcome :=
  match st.slot with
  | .loading w =>
    (⟨match out with
      | .success r => .loaded r
      | .failure c => .failed c, st.fetches⟩, List.replicate w out)
  | _ => (st, [])

/-- Iterate `load(id)` calls, discarding the observed results. -/
def callLoadN : Nat → LoaderState → LoaderState
  | 0, st => st
  | n + 1, st => callLoadN n (callLoad st).1

/-- The loader state for an identifier at process start. -/
def initialLoader : LoaderState := ⟨.notLoaded, 0⟩

/-- Demo renderer input shape declaring only the two injected lifecycle
fields (its derived contract is empty). -/
def emptyContractShape : Shape := [⟨"isOpen", true⟩, ⟨"onRequestClose", true⟩]

/-- Demo renderer input shape whose derived contract is
`{title: required, subtitle: optional}`, the spec's worked example. -/
def titleShape : Shape :=
  [⟨"isOpen", true⟩, ⟨"onRequestClose", true⟩, ⟨"title", true⟩, ⟨"subtitle", false⟩]

/-- Demo renderer input shape whose derived contract has only an optional
field and no required field. -/
def optionalOnlyShape : Shape :=
  [⟨"isOpen", true⟩, ⟨"onRequestClose", true⟩, ⟨"subtitle", false⟩]

/-- C3: for every variant identifier in the closed set, `resolve(id)`
returns a defined registry entry, and the registry holds exactly one
entry per identifier: lookup is a total function with no unregistered
identifier. -/
theorem resolve_total_unique (id : LazyModal) :
    (resolve id).isSome = true ∧
    (modals.filter (fun e => e.1 == id)).length = 1 := by
  cases id <;> exact ⟨rfl, rfl⟩

/-- C10: the closed identifier set has exactly the nine identifiers
`SquadMember`, `UpvotedPopup`, `SquadTour`, `ReadingHistory`,
`SquadPromotion`, `CreateSharedPost`, `ReportPost`, `ReportComment`,
`SquadNotifications`, and the registry pairs each of the nine, and no
other key, with a deferred-loader entry. -/
theorem modals_keys_exactly_nine :
    modals.map Prod.fst =
      [.SquadMember, .UpvotedPopup, .SquadTour, .ReadingHistory,
       .SquadPromotion, .CreateSharedPost, .ReportPost, .ReportComment,
       .SquadNotifications] ∧
    (modals.map Prod.fst).Nodup ∧
    modals.length = 9 := by
  refine ⟨rfl, ?_, rfl⟩
  decide

/-- C2: for every renderer input shape, the derived contract is the shape
with exactly the host-injected `isOpen` flag and `onRequestClose`
callback removed: a field survives into the contract iff it is a field
of the shape not named `isOpen` or `onRequestClose`, and no field is
added or reordered by the derivation (the contract is a sublist of the
shape). -/
theorem contractOf_omits_exactly_lifecycle (s : Shape) :
    (∀ f : PropField, f ∈ contractOf s ↔
      (f ∈ s ∧ f.name ≠ "isOpen" ∧ f.name ≠ "onRequestClose")) ∧
    List.Sublist (contractOf s) s := by
  refine ⟨fun f => ?_, List.filter_sublist s⟩
  simp [contractOf, List.mem_filter, bne_iff_ne, and_assoc]

/-- C2 witness: the caller field `title` of the demo shape survives into
the contract. -/
theorem contractOf_omits_exactly_lifecycle_witness :
    (⟨"title", true⟩ : PropField) ∈ contractOf titleShape :=
  ((contractOf_omits_exactly_lifecycle titleShape).1 ⟨"title", true⟩).mpr (by decide)

/-- C1 counterexample: for a renderer input shape whose contract holds
exactly one optional field, `payloadRequired` is `false` although the
contract is non-empty, so `payloadRequired(id) = false` is not
equivalent to `contractOf(id)` being the empty field set. -/
theorem payloadRequired_false_nonempty_contract :
    payloadRequired optionalOnlyShape = false ∧
    contractOf optionalOnlyShape ≠ [] := by
  exact ⟨rfl, by decide⟩

/-- C1 amended: `payloadRequired(id)` is `false` iff `contractOf(id)`
contains no field marked required (equivalently, its `NonOptional`
projection is empty); in particular every variant with an empty
contract, including those whose renderer declares only the two injected
lifecycle fields, has an optional payload. -/
theorem payloadRequired_false_iff_no_required_field (s : Shape) :
    (payloadRequired s = false ↔ ∀ f ∈ contractOf s, f.required = false) ∧
    (contractOf s = [] → payloadRequired s = false) := by
  constructor
  · simp [payloadRequired, NonOptional, List.isEmpty_iff, List.filter_eq_nil_iff]
  · intro h
    simp [payloadRequired, NonOptional, h]

/-- C1 amended witness: a renderer declaring only the two injected
lifecycle fields has an optional payload. -/
theorem payloadRequired_false_iff_no_required_field_witness :
    payloadRequired emptyContractShape = false :=
  (payloadRequired_false_iff_no_required_field emptyContractShape).1.mpr (by decide)

/-- C4: `buildRequest(id)` with no payload succeeds iff
`payloadRequired(id)` is `false`; when `payloadRequired(id)` is `true`
and the payload is absent it fails with
`ContractViolation(MissingPayload, id)`. -/
theorem buildRequest_none_ok_iff (id : LazyModal) (s : Shape) :
    (buildRequest id s none = .ok ⟨id, none⟩ ↔ payloadRequired s = false) ∧
    (payloadRequired s = true →
      buildRequest id s none = .error (.missingPayload id)) := by
  unfold buildRequest
  cases h : payloadRequired s <;> simp [h]

/-- C4 witness: a variant with an empty contract accepts a payload-less
request, and one with a required field rejects it as `MissingPayload`. -/
theorem buildRequest_none_ok_iff_witness :
    buildRequest .SquadTour emptyContractShape none = .ok ⟨.SquadTour, none⟩ ∧
    buildRequest .ReportPost titleShape none = .error (.missingPayload .ReportPost) :=
  ⟨(buildRequest_none_ok_iff .SquadTour emptyContractShape).1.mpr (by decide),
   (buildRequest_none_ok_iff .ReportPost titleShape).2 (by decide)⟩

/-- C5: with a payload present, `buildRequest` fails with
`ContractViolation(MissingField, id, g)` for some field `g` that is
marked required in `contractOf(id)` (the marking inherited from the
renderer's declaration) and absent from the payload, whenever such a
field exists; and when every required field is present and no unknown
field is present, it succeeds with the validated request. -/
theorem buildRequest_required_check (id : LazyModal) (s : Shape) (p : Payload) :
    ((∃ f ∈ NonOptional (contractOf s), f.name ∉ p) →
      ∃ g ∈ NonOptional (contractOf s), g.name ∉ p ∧
        buildRequest id s (some p) = .error (.missingField id g.name)) ∧
    ((∀ f ∈ NonOptional (contractOf s), f.name ∈ p) →
     (∀ n ∈ p, ∃ f ∈ contractOf s, f.name = n) →
      buildRequest id s (some p) = .ok ⟨id, some p⟩) := by
  constructor
  · rintro ⟨f, hf, hnp⟩
    have hsome : ((NonOptional (contractOf s)).find?
        (fun f => !p.contains f.name)).isSome := by
      rw [List.find?_isSome]
      exact ⟨f, hf, by simpa using hnp⟩
    obtain ⟨g, hg⟩ := Option.isSome_iff_exists.mp hsome
    refine ⟨g, List.mem_of_find?_eq_some hg, ?_, ?_⟩
    · simpa using List.find?_some hg
    · simp only [buildRequest]
      rw [hg]
  · intro hreq hp
    have h1 : (NonOptional (contractOf s)).find?
        (fun f => !p.contains f.name) = none := by
      rw [List.find?_eq_none]
      intro f hf
      simpa using hreq f hf
    have h2 : p.find?
        (fun n => !(contractOf s).any (fun f => f.name == n)) = none := by
      rw [List.find?_eq_none]
      intro n hn
      obtain ⟨f, hf, hfn⟩ := hp n hn
      have hany : (contractOf s).any (fun f => f.name == n) = true := by
        rw [List.any_eq_true]
        exact ⟨f, hf, by simp [hfn]⟩
      simp [hany]
    simp only [buildRequest]
    rw [h1, h2]

/-- C5 witness: for the contract `{title: required, subtitle: optional}`,
supplying `{title}` succeeds. -/
theorem buildRequest_required_check_witness :
    buildRequest .ReportPost titleShape (some ["title"]) =
      .ok ⟨.ReportPost, some ["title"]⟩ :=
  (buildRequest_required_check .ReportPost titleShape ["title"]).2
    (by decide) (by decide)

/-- Whether a validator result is an `UnknownField` contract violation. -/
def isUnknownFieldError : Except ContractViolation ModalRequest → Bool
  | .error (.unknownField _ _) => true
  | _ => false

/-- C6 counterexample: for the contract `{title: required, subtitle:
optional}` and the payload `{extra}`, the payload contains the field
`extra` that is not part of the contract, yet the validator does not
fail with an `UnknownField` violation: the missing required field
`title` takes precedence and the failure is
`ContractViolation(MissingField, id, title)`. -/
theorem unknownField_not_reported_when_required_missing :
    isUnknownFieldError
      (buildRequest .ReportPost titleShape (some ["extra"])) = false ∧
    buildRequest .ReportPost titleShape (some ["extra"]) =
      .error (.missingField .ReportPost "title") := by
  exact ⟨rfl, rfl⟩

/-- C6 amended: with a payload present that contains some field not in
`contractOf(id)`, `buildRequest` never succeeds (closed-shape
discipline: no extra field is silently accepted), and it fails with
`ContractViolation(UnknownField, id, field)` for such a field whenever
every required field of the contract is present in the payload;
otherwise a `MissingField` violation takes precedence. -/
theorem buildRequest_unknown_check (id : LazyModal) (s : Shape) (p : Payload) :
    (∃ n ∈ p, ∀ f ∈ contractOf s, f.name ≠ n) →
    ((buildRequest id s (some p)).isOk = false ∧
     ((∀ f ∈ NonOptional (contractOf s), f.name ∈ p) →
       ∃ n ∈ p, (∀ f ∈ contractOf s, f.name ≠ n) ∧
         buildRequest id s (some p) = .error (.unknownField id n))) := by
  rintro ⟨n, hn, hunk⟩
  cases hfind : (NonOptional (contractOf s)).find? (fun f => !p.contains f.name) with
  | some f =>
    constructor
    · simp only [buildRequest]
      rw [hfind]
      rfl
    · intro hall
      have hf₁ : f ∈ NonOptional (contractOf s) := List.mem_of_find?_eq_some hfind
      have hf₂ : f.name ∉ p := by simpa using List.find?_some hfind
      exact absurd (hall f hf₁) hf₂
  | none =>
    have hsome : (p.find?
        (fun m => !(contractOf s).any (fun f => f.name == m))).isSome := by
      rw [List.find?_isSome]
      refine ⟨n, hn, ?_⟩
      simp only [Bool.not_eq_eq_eq_not, Bool.not_true, List.any_eq_false]
      intro f hf
      simpa using hunk f hf
    obtain ⟨m, hm⟩ := Option.isSome_iff_exists.mp hsome
    have hm₁ : m ∈ p := List.mem_of_find?_eq_some hm
    have hm₂ : ∀ f ∈ contractOf s, f.name ≠ m := by
      have := List.find?_some hm
      simp only [Bool.not_eq_eq_eq_not, Bool.not_true, List.any_eq_false] at this
      intro f hf
      simpa using this f hf
    have heq : buildRequest id s (some p) = .error (.unknownField id m) := by
      simp only [buildRequest]
      rw [hfind, hm]
    exact ⟨by rw [heq]; rfl, fun _ => ⟨m, hm₁, hm₂, heq⟩⟩

/-- C6 amended witness: for the contract `{title: required, subtitle:
optional}` and the payload `{title, extra}`, validation is rejected. -/
theorem buildRequest_unknown_check_witness :
    (buildRequest .ReportPost titleShape (some ["title", "extra"])).isOk = false :=
  ((buildRequest_unknown_check .ReportPost titleShape ["title", "extra"])
    (by decide)).1

/-- Any number of further `load` calls on a memoized (loaded) slot leaves
the loader state unchanged. -/
theorem callLoadN_loaded (r : Renderer) (n : Nat) (k : Nat) :
    callLoadN k ⟨.loaded r, n⟩ = ⟨.loaded r, n⟩ := by
  induction k with
  | zero => rfl
  | succ k ih => simpa [callLoadN, callLoad] using ih

/-- C7: the deferred loader is idempotent and memoizing. Starting from
the initial state, a first `load` issues one fetch and, once it settles
successfully with renderer `r`, the slot is `loaded r` with exactly one
fetch issued; the settling delivers `r` to the first caller, every
subsequent call returns the same instance `r` immediately, and after any
number `k` of further calls the state is unchanged with still exactly
one fetch triggered. -/
theorem load_memoizing_idempotent (r : Renderer) (k : Nat) :
    (settle (callLoad initialLoader).1 (.success r)).1 = ⟨.loaded r, 1⟩ ∧
    (settle (callLoad initialLoader).1 (.success r)).2 = [.success r] ∧
    (callLoad ⟨.loaded r, 1⟩).2 = .immediate r ∧
    callLoadN k ⟨.loaded r, 1⟩ = ⟨.loaded r, 1⟩ ∧
    (callLoadN k ⟨.loaded r, 1⟩).fetches = 1 := by
  refine ⟨rfl, rfl, rfl, callLoadN_loaded r 1 k, ?_⟩
  rw [callLoadN_loaded r 1 k]

/-- C8: two overlapping calls to `load(id)` — the second beginning while
the first is still in flight — issue exactly one fetch, and settling the
single in-flight attempt delivers the same eventual outcome to both
callers; in general a call that arrives during `loading` never issues a
new fetch. -/
theorem load_overlap_single_fetch (out : LoadOutcome) (w n : Nat) :
    (callLoad (callLoad initialLoader).1).1.fetches = 1 ∧
    (callLoad (callLoad initialLoader).1).2 = .joined ∧
    (settle (callLoad (callLoad initialLoader).1).1 out).2 = [out, out] ∧
    (callLoad ⟨.loading w, n⟩).1.fetches = n := by
  exact ⟨rfl, rfl, rfl, rfl⟩

/-- C9: a failed load does not poison the memo. Settling the first
attempt with a failure leaves the slot `failed` after one fetch, and the
next call on a failed slot issues a fresh fetch attempt (the fetch count
increases and the caller joins a new in-flight attempt) instead of
returning the stale failure. -/
theorem load_failure_then_retry (c : Nat) (m : Nat) :
    (settle (callLoad initialLoader).1 (.failure c)).1 = ⟨.failed c, 1⟩ ∧
    callLoad ⟨.failed c, m⟩ = (⟨.loading 1, m + 1⟩, .joined) ∧
    (callLoad (settle (callLoad initialLoader).1 (.failure c)).1).1.fetches = 2 := by
  exact ⟨rfl, rfl, rfl⟩
